import Mathlib

/-!
Verification of the synthetic-observation generator
(`generate_synthetic_obs.py`) of the pdaf-climber-integration repository.

The Python source is shallowly embedded below: pure helpers become Lean
functions over `ℚ`, numpy's global random generator becomes explicit
state passing (state type `ℕ`) through abstract draw functions, fallible
code returns `Except String`, and the files a run writes are modelled as
explicit values.  Machine floats are modelled by exact rationals: every
claim under study is about control flow, ordering, formatting structure
or exact arithmetic on the written error values, not about rounding of
binary floating point.
-/

/-! ### Python string-format helpers (`f"{x:8.3f}"`, `f"{y:4d}"`, `f"{s:4s}"`)

`padLeft` models a right-justified minimum-width field, `padRight` a
left-justified one. -/

def padLeft (w : ℕ) (s : String) : String :=
  String.mk (List.replicate (w - s.length) ' ') ++ s

def padRight (w : ℕ) (s : String) : String :=
  s ++ String.mk (List.replicate (w - s.length) ' ')

def padZeros (w : ℕ) (s : String) : String :=
  String.mk (List.replicate (w - s.length) '0') ++ s

/-- Round a rational to the nearest integer, ties to even — the rounding
CPython applies when rendering a value with a fixed number of decimals. -/
def roundHalfEven (x : ℚ) : ℤ :=
  let f := ⌊x⌋
  let r := x - (f : ℚ)
  if r < 1 / 2 then f
  else if 1 / 2 < r then f + 1
  else if f % 2 = 0 then f else f + 1

/-- Python fixed-point formatting `f"{x:{w}.{p}f}"`: round to `p`
decimals, render sign, integer part, point and zero-padded fraction,
then right-justify in a field of width `w`. -/
def formatFixed (w p : ℕ) (x : ℚ) : String :=
  let scaled := roundHalfEven (x * ((10 : ℚ) ^ p))
  let m := scaled.natAbs
  let ip := m / 10 ^ p
  let fp := m % 10 ^ p
  padLeft w ((if x < 0 then "-" else "") ++ toString ip ++ "." ++ padZeros p (toString fp))

/-- Python integer formatting `f"{z:{w}d}"`: decimal digits right-justified
in a field of width `w`. -/
def formatIntWidth (w : ℕ) (z : ℤ) : String :=
  padLeft w (toString z)

/-! ### `np.argmin` and the Grid Locator (`find_nearest_grid_point`) -/

/-- Model of `np.argmin` on a 1-D array: index and value of the minimum,
with the documented first-occurrence tie-breaking (the head wins when it
is less than or equal to the minimum of the tail, so the returned index
is the least index attaining the minimum).  `none` exactly when the
array is empty, where numpy raises. -/
def argminD : List ℚ → Option (ℕ × ℚ)
  | [] => none
  | x :: rest =>
    match argminD rest with
    | none => some (0, x)
    | some (i, v) => if x ≤ v then some (0, x) else some (i + 1, v)

lemma argminD_eq_none : ∀ xs : List ℚ, argminD xs = none ↔ xs = [] := by
  intro xs
  cases xs with
  | nil => simp [argminD]
  | cons x rest =>
    simp only [argminD]
    cases argminD rest with
    | none => simp
    | some p =>
      by_cases h : x ≤ p.2 <;> simp [h]

lemma argminD_isSome {xs : List ℚ} (h : xs ≠ []) : (argminD xs).isSome = true := by
  cases hx : argminD xs with
  | none => exact absurd ((argminD_eq_none xs).mp hx) h
  | some p => rfl

/-- Full specification of `argminD`: the returned index is in range, the
returned value is the entry there, it is a minimum of the whole list, and
every strictly earlier entry is strictly larger (first occurrence). -/
lemma argminD_spec : ∀ (xs : List ℚ) (i : ℕ) (v : ℚ), argminD xs = some (i, v) →
    i < xs.length ∧ xs.getD i 0 = v ∧
    (∀ k, k < xs.length → v ≤ xs.getD k 0) ∧
    (∀ k, k < i → v < xs.getD k 0) := by
  intro xs
  induction xs with
  | nil => intro i v h; simp [argminD] at h
  | cons x rest ih =>
    intro i v h
    simp only [argminD] at h
    cases hrec : argminD rest with
    | none =>
      rw [hrec] at h
      have hrest : rest = [] := (argminD_eq_none rest).mp hrec
      subst hrest
      simp only [Option.some.injEq, Prod.mk.injEq] at h
      obtain ⟨hi, hv⟩ := h
      subst hi; subst hv
      refine ⟨by simp, by simp, ?_, ?_⟩
      · intro k hk
        have hk0 : k = 0 := by simpa using hk
        subst hk0; simp
      · intro k hk; omega
    | some p =>
      obtain ⟨i', v'⟩ := p
      rw [hrec] at h
      obtain ⟨hi', hget', hmin', hfirst'⟩ := ih i' v' hrec
      by_cases hle : x ≤ v'
      · simp only [if_pos hle, Option.some.injEq, Prod.mk.injEq] at h
        obtain ⟨hi, hv⟩ := h
        subst hi; subst hv
        refine ⟨by simp, by simp, ?_, ?_⟩
        · intro k hk
          cases k with
          | zero => simp
          | succ k' =>
            simp only [List.getD_cons_succ]
            exact le_trans hle (hmin' k' (by simpa using hk))
        · intro k hk; omega
      · simp only [if_neg hle, Option.some.injEq, Prod.mk.injEq] at h
        obtain ⟨hi, hv⟩ := h
        subst hi; subst hv
        push_neg at hle
        refine ⟨by simpa using Nat.succ_lt_succ hi', by simpa using hget', ?_, ?_⟩
        · intro k hk
          cases k with
          | zero => simpa using le_of_lt hle
          | succ k' =>
            simp only [List.getD_cons_succ]
            exact hmin' k' (by simpa using hk)
        · intro k hk
          cases k with
          | zero => simpa using hle
          | succ k' =>
            simp only [List.getD_cons_succ]
            exact hfirst' k' (by omega)

/-- Longitude wrap handling of `find_nearest_grid_point`: a negative
query longitude gets 360 added before comparison. -/
def lonNormalize (lon : ℚ) : ℚ :=
  if lon < 0 then lon + 360 else lon

/-- `np.argmin(np.abs(axis - q))`: index (with its distance) of the axis
entry nearest to `q`. -/
def nearestIdx (q : ℚ) (axis : List ℚ) : Option (ℕ × ℚ) :=
  argminD (axis.map (fun x => |x - q|))

/-- `find_nearest_grid_point(obs_lon, obs_lat, model_lon, model_lat)`:
normalize the longitude, then take the independent per-axis argmin.
`none` exactly when an axis is empty (numpy raises there). -/
def find_nearest_grid_point (obsLon obsLat : ℚ) (modelLon modelLat : List ℚ) :
    Option (ℕ × ℕ) :=
  match nearestIdx (lonNormalize obsLon) modelLon, nearestIdx obsLat modelLat with
  | some p, some q => some (p.1, q.1)
  | _, _ => none

lemma nearestIdx_spec {q : ℚ} {axis : List ℚ} {i : ℕ} {v : ℚ}
    (h : nearestIdx q axis = some (i, v)) :
    i < axis.length ∧ v = |axis.getD i 0 - q| ∧
    (∀ k, k < axis.length → |axis.getD i 0 - q| ≤ |axis.getD k 0 - q|) ∧
    (∀ k, k < i → |axis.getD i 0 - q| < |axis.getD k 0 - q|) := by
  obtain ⟨hlen, hget, hmin, hfirst⟩ := argminD_spec _ _ _ h
  rw [List.length_map] at hlen
  have hgd : ∀ k, k < axis.length →
      (axis.map (fun x => |x - q|)).getD k 0 = |axis.getD k 0 - q| := by
    intro k hk
    rw [List.getD_eq_getElem _ _ (by simpa using hk), List.getElem_map,
      List.getD_eq_getElem _ _ hk]
  have hgi := hgd i hlen
  have hv : v = |axis.getD i 0 - q| := by rw [← hget, hgi]
  refine ⟨hlen, hv, ?_, ?_⟩
  · intro k hk
    have := hmin k (by simpa using hk)
    rw [hgd k hk, hv] at this
    exact this
  · intro k hk
    have := hfirst k hk
    rw [hgd k (lt_trans hk hlen), hv] at this
    exact this

lemma nearestIdx_isSome {q : ℚ} {axis : List ℚ} (h : axis ≠ []) :
    (nearestIdx q axis).isSome = true := by
  apply argminD_isSome
  simpa using h

/-! ### Nature-run arrays and the Field Sampler (`sample_nature_run`) -/

/-- A numpy array as the sampler sees it: a shape together with the
value stored at each index tuple (indices are `ℤ` because Python indexes
with ints). -/
structure NDArray where
  shape : List ℕ
  data : List ℤ → ℚ

/-- One-dimensional view of a coordinate array (`ds.variables['lon'][:]`). -/
def NDArray.toList1 (a : NDArray) : List ℚ :=
  (List.range (a.shape.headD 0)).map (fun k => a.data [(k : ℤ)])

/-- The rank dispatch at the heart of `sample_nature_run`: rank 3 reads
`var_data[time_idx, j, i]`, rank 4 reads `var_data[time_idx, 0, j, i]`
(surface level), any other rank raises `ValueError`. -/
def extractValue (varData : NDArray) (timeIdx : ℤ) (i j : ℕ) : Except String ℚ :=
  if varData.shape.length = 3 then .ok (varData.data [timeIdx, (j : ℤ), (i : ℤ)])
  else if varData.shape.length = 4 then .ok (varData.data [timeIdx, 0, (j : ℤ), (i : ℤ)])
  else .error "Unexpected data shape"

/-- `sample_nature_run`: for each observation location find the nearest
grid point and extract the nature-run value there; the first raised
error aborts the loop. -/
def sample_nature_run (modelLon modelLat : List ℚ) (varData : NDArray) (timeIdx : ℤ) :
    List (ℚ × ℚ) → Except String (List ℚ)
  | [] => .ok []
  | (obsLon, obsLat) :: rest =>
    match find_nearest_grid_point obsLon obsLat modelLon modelLat with
    | none => .error "attempt to get argmin of an empty sequence"
    | some (i, j) =>
      match extractValue varData timeIdx i j with
      | .error e => .error e
      | .ok value =>
        match sample_nature_run modelLon modelLat varData timeIdx rest with
        | .error e => .error e
        | .ok values => .ok (value :: values)

/-! ### The Noise Model (`add_observation_noise`)

numpy's global generator is modelled by a state `st : ℕ` and an abstract
standard-normal source `gauss : ℕ → ℚ × ℕ` (draw, next state);
`np.random.normal(0, s)` for scalar `s` is `s * g` for one draw `g`, and
for a vector `s` of scales it is the elementwise product with one fresh
draw per entry — numpy returns a single scalar sample when the scale is
scalar and `size` is omitted, and an array of per-entry samples when the
scale is an array. -/

/-- Consecutive standard-normal draws, threading the generator state. -/
def gaussList (gauss : ℕ → ℚ × ℕ) : ℕ → ℕ → List ℚ × ℕ
  | 0, st => ([], st)
  | n + 1, st =>
    let p := gauss st
    let rest := gaussList gauss n p.2
    (p.1 :: rest.1, rest.2)

/-- `add_observation_noise(values, variable)`.  For `'tas'` the scale is
the scalar `1.0`: `np.random.normal(0, 1.0)` is a single draw, and
`values + noise` broadcasts that one draw over every entry.  For `'pr'`
the scale is the vector `0.1 * np.abs(values)`, so each entry gets its
own draw with its own scale.  Unknown tags raise `ValueError`. -/
def add_observation_noise (gauss : ℕ → ℚ × ℕ) (values : List ℚ) (v : String) (st : ℕ) :
    Except String ((List ℚ × List ℚ) × ℕ) :=
  if v = "tas" then
    let errors := values.map (fun _ => (1 : ℚ))
    let p := gauss st
    .ok ((values.map (fun x => x + 1 * p.1), errors), p.2)
  else if v = "pr" then
    let errors := values.map (fun x => 1 / 10 * |x|)
    let p := gaussList gauss values.length st
    .ok ((List.zipWith (fun x g => x + 1 / 10 * |x| * g) values p.1, errors), p.2)
  else .error ("Unknown variable: " ++ v)

/-! ### The Network Sampler (`generate_random_locations`)

`np.random.seed` and `np.random.uniform` are modelled by an abstract
reseed function `seedFn : ℤ → ℕ` (the state the generator is put into by
a given seed) and an abstract bounded draw
`uniform : ℚ → ℚ → ℕ → ℚ × ℕ` (low, high, state ↦ draw, next state). -/

/-- Consecutive uniform draws, threading the generator state
(`np.random.uniform(lo, hi, n)`). -/
def uniformList (uniform : ℚ → ℚ → ℕ → ℚ × ℕ) (lo hi : ℚ) : ℕ → ℕ → List ℚ × ℕ
  | 0, st => ([], st)
  | n + 1, st =>
    let p := uniform lo hi st
    let rest := uniformList uniform lo hi n p.2
    (p.1 :: rest.1, rest.2)

/-- `generate_random_locations(n_obs, lon_range, lat_range, seed)`: if a
seed is given the global generator is reseeded first, then `n_obs`
longitudes and `n_obs` latitudes are drawn. -/
def generate_random_locations (uniform : ℚ → ℚ → ℕ → ℚ × ℕ) (seedFn : ℤ → ℕ)
    (nObs : ℕ) (lonRange latRange : ℚ × ℚ) (seed : Option ℤ) (st : ℕ) :
    (List ℚ × List ℚ) × ℕ :=
  let st0 := match seed with
    | some s => seedFn s
    | none => st
  let lons := uniformList uniform lonRange.1 lonRange.2 nObs st0
  let lats := uniformList uniform latRange.1 latRange.2 nObs lons.2
  ((lons.1, lats.1), lats.2)

/-! ### Observation records, the per-year driver and the serializer -/

/-- One row of the per-year observation DataFrame. -/
structure ObsRecord where
  year : ℤ
  lon : ℚ
  lat : ℚ
  var : String
  trueValue : ℚ
  observedValue : ℚ
  error : ℚ
deriving DecidableEq

/-- Rows of one per-variable DataFrame, in the order of the drawn
locations (the columns are parallel lists). -/
def buildRecords (year : ℤ) (v : String) :
    List ℚ → List ℚ → List ℚ → List ℚ → List ℚ → List ObsRecord
  | lon :: lons, lat :: lats, t :: ts, o :: os, e :: es =>
    ⟨year, lon, lat, v, t, o, e⟩ :: buildRecords year v lons lats ts os es
  | _, _, _, _, _ => []

/-- The loaded nature-run data (`load_nature_run_data`'s result). -/
structure NatureData where
  tas : NDArray
  pr : NDArray
  lon : List ℚ
  lat : List ℚ
  time : List ℚ

/-- The body of one iteration of the year loop of
`generate_synthetic_observations`: reseeded location draws (seed
`2*year` for `tas`, `2*year + 1` for `pr`), nature-run sampling at
`time_idx = year`, noise injection, and concatenation of the `tas`
DataFrame before the `pr` DataFrame.  Returns the rows of `obs_df`
together with the generator state after the noise draws. -/
def generateYearObservations (uniform : ℚ → ℚ → ℕ → ℚ × ℕ) (seedFn : ℤ → ℕ)
    (gauss : ℕ → ℚ × ℕ) (nd : NatureData) (nObsTas nObsPr : ℕ)
    (lonMin lonMax latMin latMax : ℚ) (year : ℤ) (st : ℕ) :
    Except String (List ObsRecord × ℕ) :=
  let tl := generate_random_locations uniform seedFn nObsTas (lonMin, lonMax)
    (latMin, latMax) (some (2 * year)) st
  let pl := generate_random_locations uniform seedFn nObsPr (lonMin, lonMax)
    (latMin, latMax) (some (2 * year + 1)) tl.2
  match sample_nature_run nd.lon nd.lat nd.tas year (List.zip tl.1.1 tl.1.2) with
  | .error e => .error e
  | .ok tasTrue =>
    match sample_nature_run nd.lon nd.lat nd.pr year (List.zip pl.1.1 pl.1.2) with
    | .error e => .error e
    | .ok prTrue =>
      match add_observation_noise gauss tasTrue "tas" pl.2 with
      | .error e => .error e
      | .ok tasNoise =>
        match add_observation_noise gauss prTrue "pr" tasNoise.2 with
        | .error e => .error e
        | .ok prNoise =>
          .ok (buildRecords year "tas" tl.1.1 tl.1.2 tasTrue tasNoise.1.1 tasNoise.1.2 ++
               buildRecords year "pr" pl.1.1 pl.1.2 prTrue prNoise.1.1 prNoise.1.2,
               prNoise.2)

/-- One data line of `save_pdaf_format`:
`f"{year:4d} {lon:8.3f} {lat:8.3f} {variable:4s} {observed_value:12.6f} {error:8.3f}"`. -/
def formatPdafLine (r : ObsRecord) : String :=
  formatIntWidth 4 r.year ++ " " ++ formatFixed 8 3 r.lon ++ " " ++
  formatFixed 8 3 r.lat ++ " " ++ padRight 4 r.var ++ " " ++
  formatFixed 12 6 r.observedValue ++ " " ++ formatFixed 8 3 r.error

/-- `save_pdaf_format(obs_df, filename)` as the list of lines of the
written file: four `#` comment lines (the fourth ends in an extra
newline, producing one blank line) followed by one formatted line per
DataFrame row. -/
def save_pdaf_format (timestamp : String) (records : List ObsRecord) : List String :=
  ["# PDAF Observation File",
   "# Format: year lon lat variable observed_value error",
   "# Generated: " ++ timestamp,
   "# Number of observations: " ++ toString records.length,
   ""] ++ records.map formatPdafLine

/-- A file written by a run, identified by which write produced it and
carrying the records it serializes (serialization itself is
`save_pdaf_format` for the PDAF file). -/
inductive OutFile where
  | csv (year : ℤ) (records : List ObsRecord)
  | pdaf (year : ℤ) (records : List ObsRecord)
  | summary (nYears nObsTas nObsPr : ℕ) (lonMin lonMax latMin latMax : ℚ)
deriving DecidableEq

/-- Model of `np.min` on a 1-D array (`none` on empty, where numpy
raises). -/
def listMinD : List ℚ → Option ℚ
  | [] => none
  | x :: rest =>
    match listMinD rest with
    | none => some x
    | some m => some (min x m)

/-- Model of `np.max` on a 1-D array. -/
def listMaxD : List ℚ → Option ℚ
  | [] => none
  | x :: rest =>
    match listMaxD rest with
    | none => some x
    | some m => some (max x m)

/-- The year loop of `generate_synthetic_observations`: each year writes
its CSV file and its PDAF file before the next year runs. -/
def generateAllYears (uniform : ℚ → ℚ → ℕ → ℚ × ℕ) (seedFn : ℤ → ℕ)
    (gauss : ℕ → ℚ × ℕ) (nd : NatureData) (nObsTas nObsPr : ℕ)
    (lonMin lonMax latMin latMax : ℚ) : List ℤ → ℕ → Except String (List OutFile × ℕ)
  | [], st => .ok ([], st)
  | y :: rest, st =>
    match generateYearObservations uniform seedFn gauss nd nObsTas nObsPr
      lonMin lonMax latMin latMax y st with
    | .error e => .error e
    | .ok yr =>
      match generateAllYears uniform seedFn gauss nd nObsTas nObsPr
        lonMin lonMax latMin latMax rest yr.2 with
      | .error e => .error e
      | .ok files => .ok (.csv y yr.1 :: .pdaf y yr.1 :: files.1, files.2)

/-- `generate_synthetic_observations`: compute the grid bounds, run the
year loop over `range(start_year, start_year + n_years)`, then write the
run-level summary file last. -/
def generate_synthetic_observations (uniform : ℚ → ℚ → ℕ → ℚ × ℕ) (seedFn : ℤ → ℕ)
    (gauss : ℕ → ℚ × ℕ) (nd : NatureData) (nObsTas nObsPr : ℕ)
    (startYear : ℤ) (nYears : ℕ) (st : ℕ) : Except String (List OutFile × ℕ) :=
  match listMinD nd.lon, listMaxD nd.lon, listMinD nd.lat, listMaxD nd.lat with
  | some lonMin, some lonMax, some latMin, some latMax =>
    match generateAllYears uniform seedFn gauss nd nObsTas nObsPr
      lonMin lonMax latMin latMax ((List.range nYears).map (fun k => startYear + k)) st with
    | .error e => .error e
    | .ok files =>
      .ok (files.1 ++ [.summary nYears nObsTas nObsPr lonMin lonMax latMin latMax], files.2)
  | _, _, _, _ => .error "zero-size array to reduction operation minimum"

/-! ### The loader (`load_nature_run_data`) and `main` -/

/-- Synonym list for the temperature-like field. -/
def tas_names : List String := ["tas", "temp", "temperature", "t2m", "t_ref"]

/-- Synonym list for the precipitation-like field. -/
def pr_names : List String := ["pr", "precip", "precipitation", "rain", "prec"]

/-- `name in ds.variables` / `ds.variables[name]` over the dataset's
named variables. -/
def lookupVar (vars : List (String × NDArray)) (name : String) : Option NDArray :=
  (vars.find? (fun p => p.1 == name)).map (fun p => p.2)

/-- The synonym probe loop: first name found wins. -/
def findFirstVar (vars : List (String × NDArray)) : List String → Option NDArray
  | [] => none
  | n :: rest =>
    match lookupVar vars n with
    | some a => some a
    | none => findFirstVar vars rest

/-- `load_nature_run_data`: coordinates (with fallback names and a
default `time`), then the synonym probes for `tas` and `pr`; a missing
field raises `ValueError` naming the variable, `tas` checked first. -/
def load_nature_run_data (vars : List (String × NDArray)) : Except String NatureData :=
  match (lookupVar vars "lon").orElse (fun _ => lookupVar vars "longitude") with
  | none => .error "KeyError: longitude"
  | some lonA =>
    match (lookupVar vars "lat").orElse (fun _ => lookupVar vars "latitude") with
    | none => .error "KeyError: latitude"
    | some latA =>
      let timeL := match lookupVar vars "time" with
        | some t => t.toList1
        | none => (List.range 1000).map (fun k => (k : ℚ))
      match findFirstVar vars tas_names with
      | none => .error "Could not find tas/temperature data in nature run file"
      | some tasA =>
        match findFirstVar vars pr_names with
        | none => .error "Could not find pr/precipitation data in nature run file"
        | some prA => .ok ⟨tasA, prA, lonA.toList1, latA.toList1, timeL⟩

/-- `main`: load the nature run, then generate; a load failure aborts
before `generate_synthetic_observations` runs. -/
def mainModel (uniform : ℚ → ℚ → ℕ → ℚ × ℕ) (seedFn : ℤ → ℕ) (gauss : ℕ → ℚ × ℕ)
    (vars : List (String × NDArray)) (nObsTas nObsPr : ℕ) (startYear : ℤ)
    (nYears : ℕ) (st : ℕ) : Except String (List OutFile) :=
  match load_nature_run_data vars with
  | .error e => .error e
  | .ok nd =>
    match generate_synthetic_observations uniform seedFn gauss nd nObsTas nObsPr
      startYear nYears st with
    | .error e => .error e
    | .ok files => .ok files.1

/-- The files a run leaves on disk: all of them on success, none when
`main` aborts in the loader (the loader runs before any write). -/
def filesWritten (uniform : ℚ → ℚ → ℕ → ℚ × ℕ) (seedFn : ℤ → ℕ) (gauss : ℕ → ℚ × ℕ)
    (vars : List (String × NDArray)) (nObsTas nObsPr : ℕ) (startYear : ℤ)
    (nYears : ℕ) (st : ℕ) : List OutFile :=
  match mainModel uniform seedFn gauss vars nObsTas nObsPr startYear nYears st with
  | .ok files => files
  | .error _ => []

/-! ### Concrete fixtures used to evaluate the model on explicit inputs -/

/-- A deterministic stand-in for the standard-normal source: draw
`st + 1`, advance the state.  Consecutive draws are pairwise distinct. -/
def probeGauss (st : ℕ) : ℚ × ℕ := ((st : ℚ) + 1, st + 1)

/-- A deterministic stand-in for the bounded uniform source: return the
lower bound, advance the state. -/
def probeUniform (lo hi : ℚ) (st : ℕ) : ℚ × ℕ := (lo, st + 1)

/-- A stand-in reseed map. -/
def probeSeedFn (s : ℤ) : ℕ := s.natAbs

/-- A rank-3 constant field of value 3 on a 2×2 grid. -/
def probeField3 : NDArray := ⟨[5, 2, 2], fun _ => 3⟩

/-- A rank-3 constant field of value 4 on a 2×2 grid. -/
def probeField3pr : NDArray := ⟨[5, 2, 2], fun _ => 4⟩

/-- A rank-5 field, an unsupported shape for the Field Sampler. -/
def probeField5 : NDArray := ⟨[5, 1, 1, 2, 2], fun _ => 9⟩

/-- A tiny loaded nature run on the 2×2 grid `[0, 180] × [-45, 45]`. -/
def probeNature : NatureData := ⟨probeField3, probeField3pr, [0, 180], [-45, 45], [0]⟩

/-- A dataset exposing only coordinates: no temperature or
precipitation field under any synonym. -/
def probeVars : List (String × NDArray) := [("lon", probeField3), ("lat", probeField3)]

/-! ### Helper lemmas about the embedded operations -/

lemma find_nearest_grid_point_some {modelLon modelLat : List ℚ}
    (hlon : modelLon ≠ []) (hlat : modelLat ≠ []) (obsLon obsLat : ℚ) :
    ∃ i j, find_nearest_grid_point obsLon obsLat modelLon modelLat = some (i, j) := by
  obtain ⟨p, hp⟩ := Option.isSome_iff_exists.mp (nearestIdx_isSome (q := lonNormalize obsLon) hlon)
  obtain ⟨q, hq⟩ := Option.isSome_iff_exists.mp (nearestIdx_isSome (q := obsLat) hlat)
  exact ⟨p.1, q.1, by simp [find_nearest_grid_point, hp, hq]⟩

lemma uniformList_length (uniform : ℚ → ℚ → ℕ → ℚ × ℕ) (lo hi : ℚ) :
    ∀ n st, (uniformList uniform lo hi n st).1.length = n := by
  intro n
  induction n with
  | zero => intro st; simp [uniformList]
  | succ m ih => intro st; simp [uniformList, ih]

lemma gaussList_length (gauss : ℕ → ℚ × ℕ) :
    ∀ n st, (gaussList gauss n st).1.length = n := by
  intro n
  induction n with
  | zero => intro st; simp [gaussList]
  | succ m ih => intro st; simp [gaussList, ih]

lemma sample_nature_run_length {modelLon modelLat : List ℚ} {A : NDArray} {t : ℤ} :
    ∀ (locs : List (ℚ × ℚ)) (vs : List ℚ),
      sample_nature_run modelLon modelLat A t locs = .ok vs → vs.length = locs.length := by
  intro locs
  induction locs with
  | nil =>
    intro vs h
    simp only [sample_nature_run] at h
    obtain rfl : ([] : List ℚ) = vs := by simpa using h
    simp
  | cons p rest ih =>
    intro vs h
    obtain ⟨a, b⟩ := p
    simp only [sample_nature_run] at h
    cases hf : find_nearest_grid_point a b modelLon modelLat with
    | none => simp [hf] at h
    | some ij =>
      obtain ⟨i, j⟩ := ij
      simp only [hf] at h
      cases he : extractValue A t i j with
      | error e => simp [he] at h
      | ok value =>
        simp only [he] at h
        cases hs : sample_nature_run modelLon modelLat A t rest with
        | error e => simp [hs] at h
        | ok values =>
          simp only [hs] at h
          obtain rfl : value :: values = vs := by simpa using h
          simp [ih values hs]

lemma add_observation_noise_ok_length {gauss : ℕ → ℚ × ℕ} {values : List ℚ}
    {v : String} {st : ℕ} {noisy errs : List ℚ} {st1 : ℕ}
    (h : add_observation_noise gauss values v st = .ok ((noisy, errs), st1)) :
    noisy.length = values.length ∧ errs.length = values.length := by
  by_cases h1 : v = "tas"
  · unfold add_observation_noise at h
    rw [if_pos h1] at h
    simp only [Except.ok.injEq, Prod.mk.injEq] at h
    obtain ⟨⟨hn, he⟩, _⟩ := h
    subst hn; subst he
    simp
  · by_cases h2 : v = "pr"
    · unfold add_observation_noise at h
      rw [if_neg h1, if_pos h2] at h
      simp only [Except.ok.injEq, Prod.mk.injEq] at h
      obtain ⟨⟨hn, he⟩, _⟩ := h
      subst hn; subst he
      constructor
      · rw [List.length_zipWith, gaussList_length]
        omega
      · simp
    · unfold add_observation_noise at h
      rw [if_neg h1, if_neg h2] at h
      simp at h

lemma buildRecords_mem_var {year : ℤ} {v : String} :
    ∀ (lons lats ts os es : List ℚ) (r : ObsRecord),
      r ∈ buildRecords year v lons lats ts os es → r.var = v ∧ r.year = year := by
  intro lons
  induction lons with
  | nil => intro lats ts os es r hr; simp [buildRecords] at hr
  | cons lon lons ih =>
    intro lats ts os es r hr
    cases lats with
    | nil => simp [buildRecords] at hr
    | cons lat lats =>
      cases ts with
      | nil => simp [buildRecords] at hr
      | cons t ts =>
        cases os with
        | nil => simp [buildRecords] at hr
        | cons o os =>
          cases es with
          | nil => simp [buildRecords] at hr
          | cons e es =>
            simp only [buildRecords, List.mem_cons] at hr
            cases hr with
            | inl hr => subst hr; exact ⟨rfl, rfl⟩
            | inr hr => exact ih lats ts os es r hr

lemma buildRecords_map_loc {year : ℤ} {v : String} :
    ∀ (lons lats ts os es : List ℚ),
      lats.length = lons.length → ts.length = lons.length →
      os.length = lons.length → es.length = lons.length →
      (buildRecords year v lons lats ts os es).map (fun r => (r.lon, r.lat)) =
        List.zip lons lats := by
  intro lons
  induction lons with
  | nil =>
    intro lats ts os es h1 _ _ _
    rw [List.length_nil, List.length_eq_zero] at h1
    subst h1
    simp [buildRecords]
  | cons lon lons ih =>
    intro lats ts os es h1 h2 h3 h4
    cases lats with
    | nil => simp at h1
    | cons lat lats =>
      cases ts with
      | nil => simp at h2
      | cons t ts =>
        cases os with
        | nil => simp at h3
        | cons o os =>
          cases es with
          | nil => simp at h4
          | cons e es =>
            simp only [buildRecords, List.map_cons, List.zip_cons_cons]
            exact congrArg (List.cons (lon, lat))
              (ih lats ts os es (by simpa using h1) (by simpa using h2)
                (by simpa using h3) (by simpa using h4))

lemma generate_random_locations_seeded (uniform : ℚ → ℚ → ℕ → ℚ × ℕ)
    (seedFn : ℤ → ℕ) (nObs : ℕ) (lonRange latRange : ℚ × ℚ) (s : ℤ) (stA stB : ℕ) :
    generate_random_locations uniform seedFn nObs lonRange latRange (some s) stA =
    generate_random_locations uniform seedFn nObs lonRange latRange (some s) stB := rfl

/-- The value stored at the grid cell nearest to a location, for a
rank-3 field: `var_data[time_idx, j, i]`. -/
def natureValue3 (modelLon modelLat : List ℚ) (A : NDArray) (t : ℤ) (p : ℚ × ℚ) : ℚ :=
  match find_nearest_grid_point p.1 p.2 modelLon modelLat with
  | some ij => A.data [t, (ij.2 : ℤ), (ij.1 : ℤ)]
  | none => 0

/-- The value stored at the grid cell nearest to a location, for a
rank-4 field at surface level: `var_data[time_idx, 0, j, i]`. -/
def natureValue4 (modelLon modelLat : List ℚ) (A : NDArray) (t : ℤ) (p : ℚ × ℚ) : ℚ :=
  match find_nearest_grid_point p.1 p.2 modelLon modelLat with
  | some ij => A.data [t, 0, (ij.2 : ℤ), (ij.1 : ℤ)]
  | none => 0

lemma sample_nature_run_rank3 {modelLon modelLat : List ℚ} {A : NDArray} {t : ℤ}
    (hlon : modelLon ≠ []) (hlat : modelLat ≠ []) (h3 : A.shape.length = 3) :
    ∀ locs : List (ℚ × ℚ),
      sample_nature_run modelLon modelLat A t locs =
        .ok (locs.map (natureValue3 modelLon modelLat A t)) := by
  intro locs
  induction locs with
  | nil => simp [sample_nature_run]
  | cons p rest ih =>
    obtain ⟨a, b⟩ := p
    obtain ⟨i, j, hij⟩ := find_nearest_grid_point_some hlon hlat a b
    simp [sample_nature_run, hij, extractValue, h3, ih, natureValue3]

lemma sample_nature_run_rank4 {modelLon modelLat : List ℚ} {A : NDArray} {t : ℤ}
    (hlon : modelLon ≠ []) (hlat : modelLat ≠ []) (h4 : A.shape.length = 4) :
    ∀ locs : List (ℚ × ℚ),
      sample_nature_run modelLon modelLat A t locs =
        .ok (locs.map (natureValue4 modelLon modelLat A t)) := by
  intro locs
  induction locs with
  | nil => simp [sample_nature_run]
  | cons p rest ih =>
    obtain ⟨a, b⟩ := p
    obtain ⟨i, j, hij⟩ := find_nearest_grid_point_some hlon hlat a b
    have hne : A.shape.length ≠ 3 := by omega
    simp [sample_nature_run, hij, extractValue, hne, h4, ih, natureValue4]

/-- Every successful run of the per-year driver decomposes into the two
seeded location draws, the two sampling passes and the two noise passes,
with the `tas` rows concatenated before the `pr` rows. -/
lemma generateYear_ok_decomp {uniform : ℚ → ℚ → ℕ → ℚ × ℕ} {seedFn : ℤ → ℕ}
    {gauss : ℕ → ℚ × ℕ} {nd : NatureData} {nObsTas nObsPr : ℕ}
    {lonMin lonMax latMin latMax : ℚ} {year : ℤ} {st : ℕ}
    {recs : List ObsRecord} {stOut : ℕ}
    (h : generateYearObservations uniform seedFn gauss nd nObsTas nObsPr
      lonMin lonMax latMin latMax year st = .ok (recs, stOut)) :
    ∃ tasTrue tasNoisy tasErr prTrue prNoisy prErr : List ℚ,
      sample_nature_run nd.lon nd.lat nd.tas year
        (List.zip (generate_random_locations uniform seedFn nObsTas (lonMin, lonMax)
          (latMin, latMax) (some (2 * year)) st).1.1
          (generate_random_locations uniform seedFn nObsTas (lonMin, lonMax)
          (latMin, latMax) (some (2 * year)) st).1.2) = .ok tasTrue ∧
      sample_nature_run nd.lon nd.lat nd.pr year
        (List.zip (generate_random_locations uniform seedFn nObsPr (lonMin, lonMax)
          (latMin, latMax) (some (2 * year + 1))
          (generate_random_locations uniform seedFn nObsTas (lonMin, lonMax)
            (latMin, latMax) (some (2 * year)) st).2).1.1
          (generate_random_locations uniform seedFn nObsPr (lonMin, lonMax)
          (latMin, latMax) (some (2 * year + 1))
          (generate_random_locations uniform seedFn nObsTas (lonMin, lonMax)
            (latMin, latMax) (some (2 * year)) st).2).1.2) = .ok prTrue ∧
      tasNoisy.length = tasTrue.length ∧ tasErr.length = tasTrue.length ∧
      prNoisy.length = prTrue.length ∧ prErr.length = prTrue.length ∧
      recs = buildRecords year "tas"
          (generate_random_locations uniform seedFn nObsTas (lonMin, lonMax)
            (latMin, latMax) (some (2 * year)) st).1.1
          (generate_random_locations uniform seedFn nObsTas (lonMin, lonMax)
            (latMin, latMax) (some (2 * year)) st).1.2 tasTrue tasNoisy tasErr ++
        buildRecords year "pr"
          (generate_random_locations uniform seedFn nObsPr (lonMin, lonMax)
            (latMin, latMax) (some (2 * year + 1))
            (generate_random_locations uniform seedFn nObsTas (lonMin, lonMax)
              (latMin, latMax) (some (2 * year)) st).2).1.1
          (generate_random_locations uniform seedFn nObsPr (lonMin, lonMax)
            (latMin, latMax) (some (2 * year + 1))
            (generate_random_locations uniform seedFn nObsTas (lonMin, lonMax)
              (latMin, latMax) (some (2 * year)) st).2).1.2 prTrue prNoisy prErr := by
  simp only [generateYearObservations] at h
  cases h1 : sample_nature_run nd.lon nd.lat nd.tas year
      (List.zip (generate_random_locations uniform seedFn nObsTas (lonMin, lonMax)
        (latMin, latMax) (some (2 * year)) st).1.1
        (generate_random_locations uniform seedFn nObsTas (lonMin, lonMax)
        (latMin, latMax) (some (2 * year)) st).1.2) with
  | error e => simp [h1] at h
  | ok tasTrue =>
    simp only [h1] at h
    cases h2 : sample_nature_run nd.lon nd.lat nd.pr year
        (List.zip (generate_random_locations uniform seedFn nObsPr (lonMin, lonMax)
          (latMin, latMax) (some (2 * year + 1))
          (generate_random_locations uniform seedFn nObsTas (lonMin, lonMax)
            (latMin, latMax) (some (2 * year)) st).2).1.1
          (generate_random_locations uniform seedFn nObsPr (lonMin, lonMax)
          (latMin, latMax) (some (2 * year + 1))
          (generate_random_locations uniform seedFn nObsTas (lonMin, lonMax)
            (latMin, latMax) (some (2 * year)) st).2).1.2) with
    | error e => simp [h2] at h
    | ok prTrue =>
      simp only [h2] at h
      cases h3 : add_observation_noise gauss tasTrue "tas"
          (generate_random_locations uniform seedFn nObsPr (lonMin, lonMax)
          (latMin, latMax) (some (2 * year + 1))
          (generate_random_locations uniform seedFn nObsTas (lonMin, lonMax)
            (latMin, latMax) (some (2 * year)) st).2).2 with
      | error e => simp [h3] at h
      | ok tasNoise =>
        simp only [h3] at h
        obtain ⟨⟨tasNoisy, tasErr⟩, stT⟩ := tasNoise
        cases h4 : add_observation_noise gauss prTrue "pr" stT with
        | error e => simp [h4] at h
        | ok prNoise =>
          simp only [h4] at h
          obtain ⟨⟨prNoisy, prErr⟩, stP⟩ := prNoise
          simp only [Except.ok.injEq, Prod.mk.injEq] at h
          obtain ⟨hrecs, hst⟩ := h
          obtain ⟨hTn, hTe⟩ := add_observation_noise_ok_length h3
          obtain ⟨hPn, hPe⟩ := add_observation_noise_ok_length h4
          refine ⟨tasTrue, tasNoisy, tasErr, prTrue, prNoisy, prErr,
            ?_, ?_, hTn, hTe, hPn, hPe, hrecs.symm⟩ <;> first | exact h1 | exact h2 | rfl

/-! ### Claim theorems -/

/-- C4: the Grid Locator adds 360 to a negative query longitude before
comparison, so for every pair of model axes the queries −10 and 350
resolve to the same longitude grid index, and the same full index pair
when the latitudes are equal. -/
theorem locator_wraparound_neg10_350 :
    (∀ lon : ℚ, lon < 0 → lonNormalize lon = lon + 360) ∧
    (∀ (modelLon modelLat : List ℚ) (obsLat : ℚ),
      find_nearest_grid_point (-10) obsLat modelLon modelLat =
      find_nearest_grid_point 350 obsLat modelLon modelLat) := by
  constructor
  · intro lon h
    simp [lonNormalize, h]
  · intro modelLon modelLat obsLat
    have h : lonNormalize (-10) = lonNormalize 350 := by norm_num [lonNormalize]
    simp only [find_nearest_grid_point, h]

/-- Witness for C4 at the concrete axis `[0, 180] × [-45, 45]`. -/
theorem locator_wraparound_neg10_350_witness :
    lonNormalize (-10) = -10 + 360 ∧
    find_nearest_grid_point (-10) 40 [0, 180] [-45, 45] =
      find_nearest_grid_point 350 40 [0, 180] [-45, 45] :=
  ⟨locator_wraparound_neg10_350.1 (-10) (by norm_num),
   locator_wraparound_neg10_350.2 [0, 180] [-45, 45] 40⟩

/-- C5: on non-empty axes the Grid Locator always returns an index pair
(no error), the pair minimizes the absolute coordinate difference
independently on each axis after longitude normalization, and the
query (170, 40) on axes `[0, 180] × [-45, 45]` resolves to (1, 1). -/
theorem locator_total_argmin (modelLon modelLat : List ℚ) (obsLon obsLat : ℚ)
    (hlon : modelLon ≠ []) (hlat : modelLat ≠ []) :
    (∃ i j, find_nearest_grid_point obsLon obsLat modelLon modelLat = some (i, j) ∧
      i < modelLon.length ∧ j < modelLat.length ∧
      (∀ k, k < modelLon.length →
        |modelLon.getD i 0 - lonNormalize obsLon| ≤ |modelLon.getD k 0 - lonNormalize obsLon|) ∧
      (∀ k, k < modelLat.length →
        |modelLat.getD j 0 - obsLat| ≤ |modelLat.getD k 0 - obsLat|)) ∧
    find_nearest_grid_point 170 40 [0, 180] [-45, 45] = some (1, 1) := by
  constructor
  · obtain ⟨p, hp⟩ := Option.isSome_iff_exists.mp
      (nearestIdx_isSome (q := lonNormalize obsLon) hlon)
    obtain ⟨q, hq⟩ := Option.isSome_iff_exists.mp (nearestIdx_isSome (q := obsLat) hlat)
    obtain ⟨pi, pv⟩ := p
    obtain ⟨qi, qv⟩ := q
    obtain ⟨hpl, _, hpm, _⟩ := nearestIdx_spec hp
    obtain ⟨hql, _, hqm, _⟩ := nearestIdx_spec hq
    exact ⟨pi, qi, by simp [find_nearest_grid_point, hp, hq], hpl, hql, hpm, hqm⟩
  · norm_num [find_nearest_grid_point, nearestIdx, argminD, lonNormalize]

/-- Witness for C5 at the concrete query of the scenario. -/
theorem locator_total_argmin_witness :
    (∃ i j, find_nearest_grid_point 170 40 [0, 180] [-45, 45] = some (i, j) ∧
      i < ([0, 180] : List ℚ).length ∧ j < ([-45, 45] : List ℚ).length ∧
      (∀ k, k < ([0, 180] : List ℚ).length →
        |([0, 180] : List ℚ).getD i 0 - lonNormalize 170| ≤
          |([0, 180] : List ℚ).getD k 0 - lonNormalize 170|) ∧
      (∀ k, k < ([-45, 45] : List ℚ).length →
        |([-45, 45] : List ℚ).getD j 0 - 40| ≤ |([-45, 45] : List ℚ).getD k 0 - 40|)) ∧
    find_nearest_grid_point 170 40 [0, 180] [-45, 45] = some (1, 1) :=
  locator_total_argmin [0, 180] [-45, 45] 170 40 (by decide) (by decide)

/-- C10: whatever index pair the Grid Locator returns is, on each axis,
the smallest index attaining the minimal absolute distance: every
strictly smaller index lies strictly farther from the (normalized)
query. -/
theorem locator_tie_first_index (modelLon modelLat : List ℚ) (obsLon obsLat : ℚ)
    (i j : ℕ) (h : find_nearest_grid_point obsLon obsLat modelLon modelLat = some (i, j)) :
    i < modelLon.length ∧ j < modelLat.length ∧
    (∀ k, k < modelLon.length →
      |modelLon.getD i 0 - lonNormalize obsLon| ≤ |modelLon.getD k 0 - lonNormalize obsLon|) ∧
    (∀ k, k < modelLat.length →
      |modelLat.getD j 0 - obsLat| ≤ |modelLat.getD k 0 - obsLat|) ∧
    (∀ k, k < i →
      |modelLon.getD i 0 - lonNormalize obsLon| < |modelLon.getD k 0 - lonNormalize obsLon|) ∧
    (∀ k, k < j →
      |modelLat.getD j 0 - obsLat| < |modelLat.getD k 0 - obsLat|) := by
  unfold find_nearest_grid_point at h
  cases hp : nearestIdx (lonNormalize obsLon) modelLon with
  | none => rw [hp] at h; simp at h
  | some p =>
    cases hq : nearestIdx obsLat modelLat with
    | none => rw [hp, hq] at h; simp at h
    | some q =>
      rw [hp, hq] at h
      simp only [Option.some.injEq, Prod.mk.injEq] at h
      obtain ⟨hi, hj⟩ := h
      obtain ⟨pi, pv⟩ := p
      obtain ⟨qi, qv⟩ := q
      subst hi; subst hj
      obtain ⟨hpl, _, hpm, hpf⟩ := nearestIdx_spec hp
      obtain ⟨hql, _, hqm, hqf⟩ := nearestIdx_spec hq
      exact ⟨hpl, hql, hpm, hqm, hpf, hqf⟩

/-- Witness for C10 on an axis with a tie: on the longitude axis
`[5, 15]` the query 10 is equidistant from both entries and index 0 is
returned, and on the latitude axis `[0, 0]` both entries tie and index 0
is returned. -/
theorem locator_tie_first_index_witness :
    0 < ([5, 15] : List ℚ).length ∧ 0 < ([0, 0] : List ℚ).length ∧
    (∀ k, k < ([5, 15] : List ℚ).length →
      |([5, 15] : List ℚ).getD 0 0 - lonNormalize 10| ≤
        |([5, 15] : List ℚ).getD k 0 - lonNormalize 10|) ∧
    (∀ k, k < ([0, 0] : List ℚ).length →
      |([0, 0] : List ℚ).getD 0 0 - 0| ≤ |([0, 0] : List ℚ).getD k 0 - 0|) ∧
    (∀ k, k < 0 →
      |([5, 15] : List ℚ).getD 0 0 - lonNormalize 10| <
        |([5, 15] : List ℚ).getD k 0 - lonNormalize 10|) ∧
    (∀ k, k < 0 →
      |([0, 0] : List ℚ).getD 0 0 - 0| < |([0, 0] : List ℚ).getD k 0 - 0|) :=
  locator_tie_first_index [5, 15] [0, 0] 10 0 0 0
    (by norm_num [find_nearest_grid_point, nearestIdx, argminD, lonNormalize])

lemma list_map_getD (f : ℚ → ℚ) (as : List ℚ) (k : ℕ) (hk : k < as.length) :
    (as.map f).getD k 0 = f (as.getD k 0) := by
  rw [List.getD_eq_getElem _ _ (by simpa using hk), List.getElem_map,
    List.getD_eq_getElem _ _ hk]

lemma list_zipWith_getD (f : ℚ → ℚ → ℚ) :
    ∀ (as bs : List ℚ) (k : ℕ), k < as.length → k < bs.length →
      (List.zipWith f as bs).getD k 0 = f (as.getD k 0) (bs.getD k 0) := by
  intro as
  induction as with
  | nil => intro bs k h1 h2; simp at h1
  | cons a as ih =>
    intro bs k h1 h2
    cases bs with
    | nil => simp at h2
    | cons b bs =>
      cases k with
      | zero => simp
      | succ m =>
        simp only [List.zipWith_cons_cons, List.getD_cons_succ]
        exact ih bs m (by simpa using h1) (by simpa using h2)

/-- C1 (counterexample): with the probe normal source, whose first two
draws are 1 and 2, the `tas` pass of `add_observation_noise` over the
true values [10, 20] perturbs both observations by the same single
draw — the output is [11, 21], the two perturbations are equal — and
the output differs from the vector [10 + 1·g₀, 20 + 1·g₁] = [11, 22]
that one independent draw per observation would produce. -/
theorem noise_tas_single_shared_draw :
    add_observation_noise probeGauss [10, 20] "tas" 0 = .ok (([11, 21], [1, 1]), 1) ∧
    (11 : ℚ) - 10 = 21 - 20 ∧
    (probeGauss 0).1 ≠ (probeGauss 1).1 ∧
    [(11 : ℚ), 21] ≠ [10 + 1 * (probeGauss 0).1, 20 + 1 * (probeGauss 1).1] := by
  refine ⟨?_, by norm_num, by norm_num [probeGauss], ?_⟩
  · norm_num [add_observation_noise, probeGauss]
  · norm_num [probeGauss]

/-- C1 (amended): for `'pr'` the noise call receives the vector of
per-observation scales and yields one independent draw per observation,
each scaled by `0.1·|true value|`; for `'tas'` the scale is the scalar
1.0, a single Gaussian draw is taken, and numpy broadcasting adds that
same draw to every one of the n observations. -/
theorem noise_draw_structure (gauss : ℕ → ℚ × ℕ) (values : List ℚ) (st : ℕ) :
    (∃ errs stT, add_observation_noise gauss values "tas" st =
      .ok ((values.map (fun x => x + 1 * (gauss st).1), errs), stT)) ∧
    (∀ k, k < values.length →
      (values.map (fun x => x + 1 * (gauss st).1)).getD k 0 =
        values.getD k 0 + (gauss st).1) ∧
    (∃ errs stP, add_observation_noise gauss values "pr" st =
      .ok ((List.zipWith (fun x g => x + 1 / 10 * |x| * g) values
        (gaussList gauss values.length st).1, errs), stP)) ∧
    (∀ k, k < values.length →
      (List.zipWith (fun x g => x + 1 / 10 * |x| * g) values
        (gaussList gauss values.length st).1).getD k 0 =
        values.getD k 0 + 1 / 10 * |values.getD k 0| *
          (gaussList gauss values.length st).1.getD k 0) := by
  refine ⟨⟨values.map (fun _ => (1 : ℚ)), (gauss st).2, ?_⟩, ?_, ?_, ?_⟩
  · unfold add_observation_noise
    rw [if_pos rfl]
  · intro k hk
    rw [list_map_getD (fun x => x + 1 * (gauss st).1) values k hk]
    ring
  · refine ⟨values.map (fun x => 1 / 10 * |x|), (gaussList gauss values.length st).2, ?_⟩
    unfold add_observation_noise
    rw [if_neg (by decide), if_pos rfl]
  · intro k hk
    exact list_zipWith_getD _ values _ k hk (by rw [gaussList_length]; exact hk)

/-- Witness for the amended C1 at the probe source and the true values
[10, 20]. -/
theorem noise_draw_structure_witness :
    (∃ errs stT, add_observation_noise probeGauss [10, 20] "tas" 0 =
      .ok ((([10, 20] : List ℚ).map (fun x => x + 1 * (probeGauss 0).1), errs), stT)) ∧
    (∀ k, k < ([10, 20] : List ℚ).length →
      (([10, 20] : List ℚ).map (fun x => x + 1 * (probeGauss 0).1)).getD k 0 =
        ([10, 20] : List ℚ).getD k 0 + (probeGauss 0).1) ∧
    (∃ errs stP, add_observation_noise probeGauss [10, 20] "pr" 0 =
      .ok ((List.zipWith (fun x g => x + 1 / 10 * |x| * g) [10, 20]
        (gaussList probeGauss ([10, 20] : List ℚ).length 0).1, errs), stP)) ∧
    (∀ k, k < ([10, 20] : List ℚ).length →
      (List.zipWith (fun x g => x + 1 / 10 * |x| * g) [10, 20]
        (gaussList probeGauss ([10, 20] : List ℚ).length 0).1).getD k 0 =
        ([10, 20] : List ℚ).getD k 0 + 1 / 10 * |([10, 20] : List ℚ).getD k 0| *
          (gaussList probeGauss ([10, 20] : List ℚ).length 0).1.getD k 0) :=
  noise_draw_structure probeGauss [10, 20] 0

/-- C6: the error vector returned by `add_observation_noise` is the
constant 1.0 at every entry for `'tas'` and exactly `0.1·|true value|`
entrywise for `'pr'`; in particular a `'pr'` true value of 10.0 reports
error exactly 1.0 and a true value of 0.0 reports error exactly 0.0. -/
theorem noise_error_vector (gauss : ℕ → ℚ × ℕ) (values : List ℚ) (st : ℕ) :
    (∃ noisy stT, add_observation_noise gauss values "tas" st =
      .ok ((noisy, values.map (fun _ => (1 : ℚ))), stT)) ∧
    (∃ noisy stP, add_observation_noise gauss values "pr" st =
      .ok ((noisy, values.map (fun x => 1 / 10 * |x|)), stP)) ∧
    (∃ noisy stP, add_observation_noise gauss [10] "pr" st = .ok ((noisy, [1]), stP)) ∧
    (∃ noisy stP, add_observation_noise gauss [0] "pr" st = .ok ((noisy, [0]), stP)) := by
  refine ⟨⟨values.map (fun x => x + 1 * (gauss st).1), (gauss st).2, ?_⟩,
    ⟨List.zipWith (fun x g => x + 1 / 10 * |x| * g) values
      (gaussList gauss values.length st).1, (gaussList gauss values.length st).2, ?_⟩,
    ⟨List.zipWith (fun x g => x + 1 / 10 * |x| * g) [10]
      (gaussList gauss 1 st).1, (gaussList gauss 1 st).2, ?_⟩,
    ⟨List.zipWith (fun x g => x + 1 / 10 * |x| * g) [0]
      (gaussList gauss 1 st).1, (gaussList gauss 1 st).2, ?_⟩⟩
  · unfold add_observation_noise
    rw [if_pos rfl]
  · unfold add_observation_noise
    rw [if_neg (by decide), if_pos rfl]
  · unfold add_observation_noise
    rw [if_neg (by decide), if_pos rfl]
    norm_num
  · unfold add_observation_noise
    rw [if_neg (by decide), if_pos rfl]
    norm_num

/-- C7: on non-empty axes and a non-empty batch of locations, the Field
Sampler returns exactly the stored values `var_data[t, j, i]` at the
located cells when the field's rank is 3 and `var_data[t, 0, j, i]`
(surface level fixed at 0) when the rank is 4, and raises the shape
configuration error if and only if the rank is neither 3 nor 4. -/
theorem sampler_rank_dispatch (modelLon modelLat : List ℚ) (A : NDArray) (t : ℤ)
    (locs : List (ℚ × ℚ)) (hlon : modelLon ≠ []) (hlat : modelLat ≠ [])
    (hlocs : locs ≠ []) :
    (A.shape.length = 3 →
      sample_nature_run modelLon modelLat A t locs =
        .ok (locs.map (natureValue3 modelLon modelLat A t))) ∧
    (A.shape.length = 4 →
      sample_nature_run modelLon modelLat A t locs =
        .ok (locs.map (natureValue4 modelLon modelLat A t))) ∧
    ((∃ e, sample_nature_run modelLon modelLat A t locs = .error e) ↔
      (A.shape.length ≠ 3 ∧ A.shape.length ≠ 4)) := by
  refine ⟨fun h3 => sample_nature_run_rank3 hlon hlat h3 locs,
    fun h4 => sample_nature_run_rank4 hlon hlat h4 locs, ?_, ?_⟩
  · rintro ⟨e, he⟩
    constructor
    · intro h3
      rw [sample_nature_run_rank3 hlon hlat h3 locs] at he
      simp at he
    · intro h4
      rw [sample_nature_run_rank4 hlon hlat h4 locs] at he
      simp at he
  · rintro ⟨h3, h4⟩
    cases locs with
    | nil => exact absurd rfl hlocs
    | cons p rest =>
      obtain ⟨a, b⟩ := p
      obtain ⟨i, j, hij⟩ := find_nearest_grid_point_some hlon hlat a b
      refine ⟨"Unexpected data shape", ?_⟩
      simp [sample_nature_run, hij, extractValue, h3, h4]

/-- Witness for C7: a rank-5 field on the 2×2 grid makes the sampler
raise, and neither rank clause applies. -/
theorem sampler_rank_dispatch_witness :
    (probeField5.shape.length = 3 →
      sample_nature_run [0, 180] [-45, 45] probeField5 0 [(170, 40)] =
        .ok ([((170 : ℚ), (40 : ℚ))].map (natureValue3 [0, 180] [-45, 45] probeField5 0))) ∧
    (probeField5.shape.length = 4 →
      sample_nature_run [0, 180] [-45, 45] probeField5 0 [(170, 40)] =
        .ok ([((170 : ℚ), (40 : ℚ))].map (natureValue4 [0, 180] [-45, 45] probeField5 0))) ∧
    ((∃ e, sample_nature_run [0, 180] [-45, 45] probeField5 0 [(170, 40)] = .error e) ↔
      (probeField5.shape.length ≠ 3 ∧ probeField5.shape.length ≠ 4)) :=
  sampler_rank_dispatch [0, 180] [-45, 45] probeField5 0 [(170, 40)]
    (by decide) (by decide) (by decide)

/-- C2: the filter-compatible file is exactly 4 comment header lines —
format name, column format, timestamp line, and a count line stating
`Number of observations: N` with `N` the number of records — then one
blank line, then exactly `N` data lines, one per record in order, each
rendered by the fixed-width row format (width-4 year, 8.3f longitude,
8.3f latitude, width-4 left-justified tag, 12.6f observed value, 8.3f
error — `formatPdafLine`). -/
theorem pdaf_file_structure (timestamp : String) (records : List ObsRecord) :
    save_pdaf_format timestamp records =
      ["# PDAF Observation File",
       "# Format: year lon lat variable observed_value error",
       "# Generated: " ++ timestamp,
       "# Number of observations: " ++ toString records.length,
       ""] ++ records.map formatPdafLine ∧
    (save_pdaf_format timestamp records).length = 5 + records.length ∧
    (save_pdaf_format timestamp records).getD 3 "" =
      "# Number of observations: " ++ toString records.length ∧
    (save_pdaf_format timestamp records).getD 4 "missing" = "" ∧
    (save_pdaf_format timestamp records).drop 5 = records.map formatPdafLine ∧
    ((save_pdaf_format timestamp records).drop 5).length = records.length := by
  refine ⟨rfl, ?_, ?_, ?_, ?_, ?_⟩
  · simp [save_pdaf_format]
    omega
  · simp [save_pdaf_format, List.getD]
  · simp [save_pdaf_format, List.getD]
  · simp [save_pdaf_format]
  · simp [save_pdaf_format]

lemma grl_lons_length (uniform : ℚ → ℚ → ℕ → ℚ × ℕ) (seedFn : ℤ → ℕ) (n : ℕ)
    (lonRange latRange : ℚ × ℚ) (seed : Option ℤ) (st : ℕ) :
    (generate_random_locations uniform seedFn n lonRange latRange seed st).1.1.length = n := by
  cases seed <;> simp [generate_random_locations, uniformList_length]

lemma grl_lats_length (uniform : ℚ → ℚ → ℕ → ℚ × ℕ) (seedFn : ℤ → ℕ) (n : ℕ)
    (lonRange latRange : ℚ × ℚ) (seed : Option ℤ) (st : ℕ) :
    (generate_random_locations uniform seedFn n lonRange latRange seed st).1.2.length = n := by
  cases seed <;> simp [generate_random_locations, uniformList_length]

/-- C9: in every year's Observation Set, the record list is a block of
`tas` records followed by a block of `pr` records, and within each
block the records carry the drawn locations of that variable's network
in draw order. -/
theorem year_records_tas_before_pr (uniform : ℚ → ℚ → ℕ → ℚ × ℕ) (seedFn : ℤ → ℕ)
    (gauss : ℕ → ℚ × ℕ) (nd : NatureData) (nObsTas nObsPr : ℕ)
    (lonMin lonMax latMin latMax : ℚ) (year : ℤ) (st : ℕ)
    (recs : List ObsRecord) (stOut : ℕ)
    (h : generateYearObservations uniform seedFn gauss nd nObsTas nObsPr
      lonMin lonMax latMin latMax year st = .ok (recs, stOut)) :
    ∃ tasRecs prRecs,
      recs = tasRecs ++ prRecs ∧
      (∀ r ∈ tasRecs, r.var = "tas" ∧ r.year = year) ∧
      (∀ r ∈ prRecs, r.var = "pr" ∧ r.year = year) ∧
      tasRecs.map (fun r => (r.lon, r.lat)) =
        List.zip (generate_random_locations uniform seedFn nObsTas (lonMin, lonMax)
            (latMin, latMax) (some (2 * year)) st).1.1
          (generate_random_locations uniform seedFn nObsTas (lonMin, lonMax)
            (latMin, latMax) (some (2 * year)) st).1.2 ∧
      prRecs.map (fun r => (r.lon, r.lat)) =
        List.zip (generate_random_locations uniform seedFn nObsPr (lonMin, lonMax)
            (latMin, latMax) (some (2 * year + 1))
            (generate_random_locations uniform seedFn nObsTas (lonMin, lonMax)
              (latMin, latMax) (some (2 * year)) st).2).1.1
          (generate_random_locations uniform seedFn nObsPr (lonMin, lonMax)
            (latMin, latMax) (some (2 * year + 1))
            (generate_random_locations uniform seedFn nObsTas (lonMin, lonMax)
              (latMin, latMax) (some (2 * year)) st).2).1.2 := by
  obtain ⟨tasTrue, tasNoisy, tasErr, prTrue, prNoisy, prErr,
    h1, h2, hTn, hTe, hPn, hPe, hrecs⟩ := generateYear_ok_decomp h
  have hT1 := grl_lons_length uniform seedFn nObsTas (lonMin, lonMax) (latMin, latMax)
    (some (2 * year)) st
  have hT2 := grl_lats_length uniform seedFn nObsTas (lonMin, lonMax) (latMin, latMax)
    (some (2 * year)) st
  have hP1 := grl_lons_length uniform seedFn nObsPr (lonMin, lonMax) (latMin, latMax)
    (some (2 * year + 1))
    (generate_random_locations uniform seedFn nObsTas (lonMin, lonMax)
      (latMin, latMax) (some (2 * year)) st).2
  have hP2 := grl_lats_length uniform seedFn nObsPr (lonMin, lonMax) (latMin, latMax)
    (some (2 * year + 1))
    (generate_random_locations uniform seedFn nObsTas (lonMin, lonMax)
      (latMin, latMax) (some (2 * year)) st).2
  have hts : tasTrue.length = nObsTas := by
    rw [sample_nature_run_length _ _ h1, List.length_zip, hT1, hT2, min_self]
  have hps : prTrue.length = nObsPr := by
    rw [sample_nature_run_length _ _ h2, List.length_zip, hP1, hP2, min_self]
  refine ⟨_, _, hrecs, ?_, ?_, ?_, ?_⟩
  · intro r hr
    exact buildRecords_mem_var _ _ _ _ _ r hr
  · intro r hr
    exact buildRecords_mem_var _ _ _ _ _ r hr
  · exact buildRecords_map_loc _ _ _ _ _ (by rw [hT1, hT2]) (by rw [hT1, hts])
      (by rw [hT1, hTn, hts]) (by rw [hT1, hTe, hts])
  · exact buildRecords_map_loc _ _ _ _ _ (by rw [hP1, hP2]) (by rw [hP1, hps])
      (by rw [hP1, hPn, hps]) (by rw [hP1, hPe, hps])

/-- Witness for C9 at a concrete full pipeline run on the probe nature
run: one `tas` and one `pr` observation in year 3. -/
theorem year_records_tas_before_pr_witness :
    ∃ tasRecs prRecs,
      [({ year := 3, lon := 0, lat := -45, var := "tas", trueValue := 3,
          observedValue := 13, error := 1 } : ObsRecord),
       { year := 3, lon := 0, lat := -45, var := "pr", trueValue := 4,
          observedValue := 42 / 5, error := 2 / 5 }] = tasRecs ++ prRecs ∧
      (∀ r ∈ tasRecs, r.var = "tas" ∧ r.year = 3) ∧
      (∀ r ∈ prRecs, r.var = "pr" ∧ r.year = 3) ∧
      tasRecs.map (fun r => (r.lon, r.lat)) =
        List.zip (generate_random_locations probeUniform probeSeedFn 1 (0, 180)
            (-45, 45) (some (2 * 3)) 0).1.1
          (generate_random_locations probeUniform probeSeedFn 1 (0, 180)
            (-45, 45) (some (2 * 3)) 0).1.2 ∧
      prRecs.map (fun r => (r.lon, r.lat)) =
        List.zip (generate_random_locations probeUniform probeSeedFn 1 (0, 180)
            (-45, 45) (some (2 * 3 + 1))
            (generate_random_locations probeUniform probeSeedFn 1 (0, 180)
              (-45, 45) (some (2 * 3)) 0).2).1.1
          (generate_random_locations probeUniform probeSeedFn 1 (0, 180)
            (-45, 45) (some (2 * 3 + 1))
            (generate_random_locations probeUniform probeSeedFn 1 (0, 180)
              (-45, 45) (some (2 * 3)) 0).2).1.2 :=
  year_records_tas_before_pr probeUniform probeSeedFn probeGauss probeNature 1 1
    0 180 (-45) 45 3 0 _ 11
    (by norm_num [generateYearObservations, generate_random_locations, uniformList,
      sample_nature_run, find_nearest_grid_point, nearestIdx, argminD, lonNormalize,
      extractValue, add_observation_noise, gaussList, buildRecords, probeGauss,
      probeUniform, probeSeedFn, probeNature, probeField3, probeField3pr,
      eq_false (show ¬ ("pr" = "tas") by decide)])

/-- C3: a seeded call of the Network Sampler returns the same location
sequences whatever the incoming generator state (reseeding makes it a
pure function of the seed); the whole per-year driver is likewise state
independent because it reseeds with `2*year` for the `tas` network and
`2*year + 1` for the `pr` network before drawing, so the record list's
locations are exactly the two seeded draws concatenated. -/
theorem network_sampler_deterministic (uniform : ℚ → ℚ → ℕ → ℚ × ℕ) (seedFn : ℤ → ℕ)
    (gauss : ℕ → ℚ × ℕ) (nd : NatureData) (nObsTas nObsPr : ℕ)
    (lonMin lonMax latMin latMax : ℚ) (year : ℤ) :
    (∀ (n : ℕ) (lonRange latRange : ℚ × ℚ) (s : ℤ) (stA stB : ℕ),
      (generate_random_locations uniform seedFn n lonRange latRange (some s) stA).1 =
      (generate_random_locations uniform seedFn n lonRange latRange (some s) stB).1) ∧
    (∀ stA stB : ℕ,
      generateYearObservations uniform seedFn gauss nd nObsTas nObsPr
        lonMin lonMax latMin latMax year stA =
      generateYearObservations uniform seedFn gauss nd nObsTas nObsPr
        lonMin lonMax latMin latMax year stB) ∧
    (∀ (st : ℕ) (recs : List ObsRecord) (stOut : ℕ),
      generateYearObservations uniform seedFn gauss nd nObsTas nObsPr
        lonMin lonMax latMin latMax year st = .ok (recs, stOut) →
      recs.map (fun r => (r.lon, r.lat)) =
        List.zip (generate_random_locations uniform seedFn nObsTas (lonMin, lonMax)
            (latMin, latMax) (some (2 * year)) st).1.1
          (generate_random_locations uniform seedFn nObsTas (lonMin, lonMax)
            (latMin, latMax) (some (2 * year)) st).1.2 ++
        List.zip (generate_random_locations uniform seedFn nObsPr (lonMin, lonMax)
            (latMin, latMax) (some (2 * year + 1)) st).1.1
          (generate_random_locations uniform seedFn nObsPr (lonMin, lonMax)
            (latMin, latMax) (some (2 * year + 1)) st).1.2) := by
  refine ⟨?_, ?_, ?_⟩
  · intro n lonRange latRange s stA stB
    rw [generate_random_locations_seeded uniform seedFn n lonRange latRange s stA stB]
  · intro stA stB
    simp only [generateYearObservations]
    rw [generate_random_locations_seeded uniform seedFn nObsTas (lonMin, lonMax)
      (latMin, latMax) (2 * year) stA stB]
  · intro st recs stOut h
    obtain ⟨tasTrue, tasNoisy, tasErr, prTrue, prNoisy, prErr,
      h1, h2, hTn, hTe, hPn, hPe, hrecs⟩ := generateYear_ok_decomp h
    subst hrecs
    have hT1 := grl_lons_length uniform seedFn nObsTas (lonMin, lonMax) (latMin, latMax)
      (some (2 * year)) st
    have hT2 := grl_lats_length uniform seedFn nObsTas (lonMin, lonMax) (latMin, latMax)
      (some (2 * year)) st
    have hP1 := grl_lons_length uniform seedFn nObsPr (lonMin, lonMax) (latMin, latMax)
      (some (2 * year + 1))
      (generate_random_locations uniform seedFn nObsTas (lonMin, lonMax)
        (latMin, latMax) (some (2 * year)) st).2
    have hP2 := grl_lats_length uniform seedFn nObsPr (lonMin, lonMax) (latMin, latMax)
      (some (2 * year + 1))
      (generate_random_locations uniform seedFn nObsTas (lonMin, lonMax)
        (latMin, latMax) (some (2 * year)) st).2
    have hts : tasTrue.length = nObsTas := by
      rw [sample_nature_run_length _ _ h1, List.length_zip, hT1, hT2, min_self]
    have hps : prTrue.length = nObsPr := by
      rw [sample_nature_run_length _ _ h2, List.length_zip, hP1, hP2, min_self]
    rw [List.map_append,
      buildRecords_map_loc _ _ _ _ _ (by rw [hT1, hT2]) (by rw [hT1, hts])
        (by rw [hT1, hTn, hts]) (by rw [hT1, hTe, hts]),
      buildRecords_map_loc _ _ _ _ _ (by rw [hP1, hP2]) (by rw [hP1, hps])
        (by rw [hP1, hPn, hps]) (by rw [hP1, hPe, hps]),
      generate_random_locations_seeded uniform seedFn nObsPr (lonMin, lonMax)
        (latMin, latMax) (2 * year + 1)
        (generate_random_locations uniform seedFn nObsTas (lonMin, lonMax)
          (latMin, latMax) (some (2 * year)) st).2 st]

/-- Witness for C3 at the probe generators and the probe nature run. -/
theorem network_sampler_deterministic_witness :
    (∀ (n : ℕ) (lonRange latRange : ℚ × ℚ) (s : ℤ) (stA stB : ℕ),
      (generate_random_locations probeUniform probeSeedFn n lonRange latRange (some s) stA).1 =
      (generate_random_locations probeUniform probeSeedFn n lonRange latRange (some s) stB).1) ∧
    (∀ stA stB : ℕ,
      generateYearObservations probeUniform probeSeedFn probeGauss probeNature 1 1
        0 180 (-45) 45 3 stA =
      generateYearObservations probeUniform probeSeedFn probeGauss probeNature 1 1
        0 180 (-45) 45 3 stB) ∧
    (∀ (st : ℕ) (recs : List ObsRecord) (stOut : ℕ),
      generateYearObservations probeUniform probeSeedFn probeGauss probeNature 1 1
        0 180 (-45) 45 3 st = .ok (recs, stOut) →
      recs.map (fun r => (r.lon, r.lat)) =
        List.zip (generate_random_locations probeUniform probeSeedFn 1 (0, 180)
            (-45, 45) (some (2 * 3)) st).1.1
          (generate_random_locations probeUniform probeSeedFn 1 (0, 180)
            (-45, 45) (some (2 * 3)) st).1.2 ++
        List.zip (generate_random_locations probeUniform probeSeedFn 1 (0, 180)
            (-45, 45) (some (2 * 3 + 1)) st).1.1
          (generate_random_locations probeUniform probeSeedFn 1 (0, 180)
            (-45, 45) (some (2 * 3 + 1)) st).1.2) :=
  network_sampler_deterministic probeUniform probeSeedFn probeGauss probeNature 1 1
    0 180 (-45) 45 3

/-- C8: when neither the temperature-like nor the precipitation-like
field exists in the data source under any accepted synonym (and the
coordinate axes resolve), the loader raises the fatal error naming the
missing variable (`tas`, checked first), and the run writes no file at
all — generation never starts. -/
theorem missing_field_aborts (uniform : ℚ → ℚ → ℕ → ℚ × ℕ) (seedFn : ℤ → ℕ)
    (gauss : ℕ → ℚ × ℕ) (vars : List (String × NDArray)) (nObsTas nObsPr : ℕ)
    (startYear : ℤ) (nYears : ℕ) (st : ℕ)
    (hlon : ((lookupVar vars "lon").orElse
      (fun _ => lookupVar vars "longitude")).isSome = true)
    (hlat : ((lookupVar vars "lat").orElse
      (fun _ => lookupVar vars "latitude")).isSome = true)
    (htas : findFirstVar vars tas_names = none)
    (hpr : findFirstVar vars pr_names = none) :
    mainModel uniform seedFn gauss vars nObsTas nObsPr startYear nYears st =
      .error "Could not find tas/temperature data in nature run file" ∧
    filesWritten uniform seedFn gauss vars nObsTas nObsPr startYear nYears st = [] := by
  obtain ⟨lonA, hA⟩ := Option.isSome_iff_exists.mp hlon
  obtain ⟨latA, hB⟩ := Option.isSome_iff_exists.mp hlat
  have hload : load_nature_run_data vars =
      .error "Could not find tas/temperature data in nature run file" := by
    unfold load_nature_run_data
    rw [hA, hB, htas]
  constructor
  · unfold mainModel
    rw [hload]
  · unfold filesWritten mainModel
    rw [hload]

/-- Witness for C8: a dataset exposing only the coordinate axes. -/
theorem missing_field_aborts_witness :
    mainModel probeUniform probeSeedFn probeGauss probeVars 1 1 0 1 0 =
      .error "Could not find tas/temperature data in nature run file" ∧
    filesWritten probeUniform probeSeedFn probeGauss probeVars 1 1 0 1 0 = [] :=
  missing_field_aborts probeUniform probeSeedFn probeGauss probeVars 1 1 0 1 0
    (by decide) (by decide) (by rfl) (by rfl)
